import Mathlib

/-!
Verification of the Azure Blob Storage adapter (`object_store/src/azure/mod.rs`)
against its natural-language specification.

The Rust module is shallowly embedded: pure fragments become Lean functions,
the builder is a record, fallible operations return `Except`.  External
collaborators (the `url` crate's WHATWG parser, the HTTP transport, the
credential subsystem in `credential.rs`, `client.rs`) are modelled at their
interface boundary, as the specification treats them as out of scope.
-/

/-! ## Byte-level helpers: UTF-8, percent-decoding, base64

These model the behavior of `percent_encoding::percent_decode_str`,
`str::from_utf8` (strict UTF-8 validation, as used by `decode_utf8`) and
`base64::encode` (standard alphabet with padding), which the Rust module
calls on its strings.  Bytes are `Nat` values below 256.
-/

/-- UTF-8 encoding of a single unicode scalar value. -/
def utf8_encode_char (c : Char) : List Nat :=
  let n := c.toNat
  if n < 0x80 then [n]
  else if n < 0x800 then [0xC0 + n / 64, 0x80 + n % 64]
  else if n < 0x10000 then [0xE0 + n / 4096, 0x80 + (n / 64) % 64, 0x80 + n % 64]
  else [0xF0 + n / 262144, 0x80 + (n / 4096) % 64, 0x80 + (n / 64) % 64, 0x80 + n % 64]

/-- UTF-8 encoding of a string, as the byte sequence Rust's `str` stores. -/
def utf8_encode_string (s : String) : List Nat :=
  (s.data.map utf8_encode_char).flatten

/-- Strict UTF-8 decoding, mirroring `std::str::from_utf8`: rejects overlong
encodings, surrogate code points and values above U+10FFFF. -/
def utf8_decode : List Nat → Option (List Char)
  | [] => some []
  | b :: rest =>
    if b < 0x80 then
      (utf8_decode rest).map (fun cs => Char.ofNat b :: cs)
    else if 0xC2 ≤ b ∧ b ≤ 0xDF then
      match rest with
      | c1 :: rest2 =>
        if 0x80 ≤ c1 ∧ c1 ≤ 0xBF then
          (utf8_decode rest2).map
            (fun cs => Char.ofNat ((b - 0xC0) * 64 + (c1 - 0x80)) :: cs)
        else none
      | [] => none
    else if 0xE0 ≤ b ∧ b ≤ 0xEF then
      match rest with
      | c1 :: c2 :: rest2 =>
        let lo1 := if b = 0xE0 then 0xA0 else 0x80
        let hi1 := if b = 0xED then 0x9F else 0xBF
        if (lo1 ≤ c1 ∧ c1 ≤ hi1) ∧ (0x80 ≤ c2 ∧ c2 ≤ 0xBF) then
          (utf8_decode rest2).map
            (fun cs =>
              Char.ofNat ((b - 0xE0) * 4096 + (c1 - 0x80) * 64 + (c2 - 0x80)) :: cs)
        else none
      | _ => none
    else if 0xF0 ≤ b ∧ b ≤ 0xF4 then
      match rest with
      | c1 :: c2 :: c3 :: rest2 =>
        let lo1 := if b = 0xF0 then 0x90 else 0x80
        let hi1 := if b = 0xF4 then 0x8F else 0xBF
        if (lo1 ≤ c1 ∧ c1 ≤ hi1) ∧ (0x80 ≤ c2 ∧ c2 ≤ 0xBF) ∧ (0x80 ≤ c3 ∧ c3 ≤ 0xBF) then
          (utf8_decode rest2).map
            (fun cs =>
              Char.ofNat
                ((b - 0xF0) * 262144 + (c1 - 0x80) * 4096 + (c2 - 0x80) * 64
                  + (c3 - 0x80)) :: cs)
        else none
      | _ => none
    else none

/-- Value of an ASCII hex digit byte, accepting both letter cases. -/
def hex_digit_val (b : Nat) : Option Nat :=
  if 48 ≤ b ∧ b ≤ 57 then some (b - 48)
  else if 97 ≤ b ∧ b ≤ 102 then some (b - 87)
  else if 65 ≤ b ∧ b ≤ 70 then some (b - 55)
  else none

/-- Percent-decoding on bytes, mirroring `percent_encoding::percent_decode`:
a percent sign followed by two hex digits becomes the denoted byte; an
invalid sequence leaves the percent sign untouched and rescans after it. -/
def percent_decode : List Nat → List Nat
  | [] => []
  | 37 :: h1 :: h2 :: rest =>
    match hex_digit_val h1, hex_digit_val h2 with
    | some a, some b => (a * 16 + b) :: percent_decode rest
    | _, _ => 37 :: percent_decode (h1 :: h2 :: rest)
  | b :: rest => b :: percent_decode rest

/-- Character of the standard base64 alphabet at index `n < 64`. -/
def base64_char (n : Nat) : Char :=
  if n < 26 then Char.ofNat (65 + n)
  else if n < 52 then Char.ofNat (97 + (n - 26))
  else if n < 62 then Char.ofNat (48 + (n - 52))
  else if n = 62 then '+'
  else '/'

/-- Standard base64 encoding with padding, as `base64::encode` produces. -/
def base64_encode_chars : List Nat → List Char
  | [] => []
  | [a] => [base64_char (a / 4), base64_char (a % 4 * 16), '=', '=']
  | [a, b] =>
    [base64_char (a / 4), base64_char (a % 4 * 16 + b / 16),
     base64_char (b % 16 * 4), '=']
  | a :: b :: c :: rest =>
    base64_char (a / 4) :: base64_char (a % 4 * 16 + b / 16) ::
      base64_char (b % 16 * 4 + c / 64) :: base64_char (c % 64) ::
      base64_encode_chars rest

/-- `base64::encode` of a byte sequence, as a string. -/
def base64_encode (bytes : List Nat) : String :=
  String.mk (base64_encode_chars bytes)

/-! ## String helpers mirroring the Rust `str` methods used by the module -/

/-- Rust `char::is_whitespace`: the Unicode White_Space property. -/
def rust_is_whitespace (c : Char) : Bool :=
  let n := c.toNat
  (9 ≤ n && n ≤ 13) || n = 32 || n = 0x85 || n = 0xA0 || n = 0x1680 ||
    (0x2000 ≤ n && n ≤ 0x200A) || n = 0x2028 || n = 0x2029 || n = 0x202F ||
    n = 0x205F || n = 0x3000

/-- Rust `str::trim`: strip leading and trailing whitespace. -/
def trim_chars (l : List Char) : List Char :=
  ((l.dropWhile rust_is_whitespace).reverse.dropWhile rust_is_whitespace).reverse

/-- Rust `str::split(sep)`: split at every separator, keeping empty pieces. -/
def split_on_char (sep : Char) : List Char → List (List Char)
  | [] => [[]]
  | x :: xs =>
    match split_on_char sep xs with
    | [] => if x = sep then [[], []] else [[x]]
    | s :: ss => if x = sep then [] :: s :: ss else (x :: s) :: ss

/-- Rust `str::split_once(sep)`: split at the first separator only. -/
def split_once_chars (sep : Char) : List Char → Option (List Char × List Char)
  | [] => none
  | x :: xs =>
    if x = sep then some ([], xs)
    else (split_once_chars sep xs).map (fun p => (x :: p.1, p.2))

/-- `str::split_once` lifted to `String`. -/
def split_once_str (sep : Char) (s : String) : Option (String × String) :=
  (split_once_chars sep s.data).map (fun p => (String.mk p.1, String.mk p.2))

/-- Rust `str::strip_suffix`: the prefix left after removing `suf`, when `suf`
is a suffix. -/
def strip_suffix_chars (l suf : List Char) : Option (List Char) :=
  if suf.isSuffixOf l then some (l.take (l.length - suf.length)) else none

/-- `str::strip_suffix` lifted to `String`. -/
def strip_suffix_str (s suf : String) : Option String :=
  (strip_suffix_chars s.data suf.data).map String.mk

/-- ASCII lowercasing, mirroring `str::to_ascii_lowercase`. -/
def ascii_lowercase_char (c : Char) : Char :=
  if 65 ≤ c.toNat ∧ c.toNat ≤ 90 then Char.ofNat (c.toNat + 32) else c

/-- `str::to_ascii_lowercase` on a whole string. -/
def ascii_lowercase (s : String) : String :=
  String.mk (s.data.map ascii_lowercase_char)

/-- Rust `{:w}` display formatting for unsigned integers: right-aligned,
padded on the left with spaces up to the minimum width `w`. -/
def rust_format_width (w : Nat) (s : String) : String :=
  if s.length < w then String.mk (List.replicate (w - s.length) ' ' ++ s.data) else s

/-! ## Data model

Mirrors the `enum Error`, `MicrosoftAzureBuilder`, `AzureConfigKey`,
`credential::CredentialProvider` and `client::AzureConfig` types.  Only the
error variants reachable from the embedded functions are included; each
carries the same diagnostic payload as its `snafu` original.
-/

/-- The error variants of `enum Error` raised by the embedded functions,
with their diagnostic payloads (offending url, scheme or key). -/
inductive AzError where
  | unableToParseUrl (url : String)
  | missingAccount
  | missingContainerName
  | missingCredentials
  | unknownUrlScheme (scheme : String)
  | urlNotRecognised (url : String)
  | decodeSasKey
  | missingSasComponent
  | unknownConfigurationKey (key : String)
deriving DecidableEq, Repr

/-- The well-known account used by Azurite and the legacy Azure Storage
Emulator (`EMULATOR_ACCOUNT`). -/
def EMULATOR_ACCOUNT : String := "devstoreaccount1"

/-- The well-known account key used by Azurite and the legacy Azure Storage
Emulator (`EMULATOR_ACCOUNT_KEY`). -/
def EMULATOR_ACCOUNT_KEY : String :=
  "Eby8vdM02xNOcqFlqUwJPLlmEtlCDXJ1OUzFT50uSRZ6IFsuFq2UVErCz4I6tq/K1SZFPTOtr/KBHBeksoGMGw=="

/-- Modelled from the spec: the oauth client-secret credential of the external
`credential.rs` subsystem (not under src/), carrying the client id, client
secret, tenant id and optional authority host handed to
`ClientSecretOAuthProvider::new`. -/
structure ClientSecretOAuthProvider where
  client_id : String
  client_secret : String
  tenant_id : String
  authority_host : Option String
deriving DecidableEq, Repr

/-- Modelled from the spec: the closed `CredentialStrategy` variant of the
external `credential.rs` subsystem (not under src/): a shared opaque secret
string (used for both access keys and bearer tokens), a client-secret oauth
configuration, or an ordered SAS query-pair list. -/
inductive CredentialProvider where
  | accessKey (secret : String)
  | clientSecret (oauth : ClientSecretOAuthProvider)
  | sasToken (pairs : List (String × String))
deriving DecidableEq, Repr

/-- Modelled from the spec: the `ClientOptions` collaborator, reduced to the
one field the Azure module reads and writes, the allow-http flag. -/
structure ClientOptions where
  allow_http : Bool := false
deriving DecidableEq, Repr

/-- A connection URL after the external `url` crate has parsed it: the raw
text (used in error payloads), the scheme, the userinfo (empty string when
absent, as `Url::username` returns) and the host (`Url::host_str`). -/
structure ParsedUrl where
  raw : String
  scheme : String
  username : String
  host : Option String
deriving DecidableEq, Repr

/-- The mutable state of `MicrosoftAzureBuilder`.  The `retry_config` field
is omitted: it is carried through unchanged and never inspected. -/
structure Builder where
  account_name : Option String := none
  access_key : Option String := none
  container_name : Option String := none
  bearer_token : Option String := none
  client_id : Option String := none
  client_secret : Option String := none
  tenant_id : Option String := none
  sas_query_pairs : Option (List (String × String)) := none
  sas_key : Option String := none
  authority_host : Option String := none
  url : Option ParsedUrl := none
  use_emulator : Bool := false
  client_options : ClientOptions := {}
deriving DecidableEq, Repr

/-- `MicrosoftAzureBuilder::new` (the `Default` derive). -/
def Builder.new : Builder := {}

/-- The validated `client::AzureConfig` produced by `build` (struct literal
at the end of `build`; `retry_config` omitted as in `Builder`).  The service
endpoint is kept as its URL text. -/
structure AzureConfig where
  account : String
  container : String
  is_emulator : Bool
  service : String
  credentials : CredentialProvider
  client_options : ClientOptions
deriving DecidableEq, Repr

/-- `multipart::UploadPart`: the record that one block was accepted. -/
structure UploadPart where
  content_id : String
deriving DecidableEq, Repr

/-- `client::BlockList`: the ordered manifest of block identifiers.  A
`BlockId` is its identifier text (the bytes `BlockId::from(String)` wraps). -/
structure BlockList where
  blocks : List String
deriving DecidableEq, Repr

/-- The enumerated configuration keys (`AzureConfigKey`). -/
inductive AzureConfigKey where
  | accountName
  | accessKey
  | clientId
  | clientSecret
  | authorityId
  | sasKey
  | token
  | useEmulator
deriving DecidableEq, Repr

/-- All configuration keys, for finite enumeration in statements. -/
def azure_config_keys : List AzureConfigKey :=
  [.accountName, .accessKey, .clientId, .clientSecret, .authorityId,
   .sasKey, .token, .useEmulator]

/-- `AzureConfigKey::as_ref`: the canonical alias of each key. -/
def AzureConfigKey.as_ref : AzureConfigKey → String
  | .accountName => "azure_storage_account_name"
  | .accessKey => "azure_storage_account_key"
  | .clientId => "azure_storage_client_id"
  | .clientSecret => "azure_storage_client_secret"
  | .authorityId => "azure_storage_tenant_id"
  | .sasKey => "azure_storage_sas_key"
  | .token => "azure_storage_token"
  | .useEmulator => "azure_storage_use_emulator"

/-- `AzureConfigKey::from_str`: the exact-string alias match; anything else
is an unknown-configuration-key error naming the offending string. -/
def AzureConfigKey.from_str (s : String) : Except AzError AzureConfigKey :=
  if s = "azure_storage_account_key" ∨ s = "azure_storage_access_key" ∨
      s = "azure_storage_master_key" ∨ s = "master_key" ∨
      s = "account_key" ∨ s = "access_key" then .ok .accessKey
  else if s = "azure_storage_account_name" ∨ s = "account_name" then .ok .accountName
  else if s = "azure_storage_client_id" ∨ s = "azure_client_id" ∨
      s = "client_id" then .ok .clientId
  else if s = "azure_storage_client_secret" ∨ s = "azure_client_secret" ∨
      s = "client_secret" then .ok .clientSecret
  else if s = "azure_storage_tenant_id" ∨ s = "azure_storage_authority_id" ∨
      s = "azure_tenant_id" ∨ s = "azure_authority_id" ∨
      s = "tenant_id" ∨ s = "authority_id" then .ok .authorityId
  else if s = "azure_storage_sas_key" ∨ s = "azure_storage_sas_token" ∨
      s = "sas_key" ∨ s = "sas_token" then .ok .sasKey
  else if s = "azure_storage_token" ∨ s = "bearer_token" ∨ s = "token" then .ok .token
  else if s = "azure_storage_use_emulator" ∨ s = "use_emulator" then .ok .useEmulator
  else .error (.unknownConfigurationKey s)

/-- The alias lists the doc comments on `AzureConfigKey` document as the
supported keys of each variant. -/
def documented_aliases : AzureConfigKey → List String
  | .accountName => ["azure_storage_account_name", "account_name"]
  | .accessKey =>
    ["azure_storage_account_key", "azure_storage_access_key",
     "azure_storage_master_key", "access_key", "account_key", "master_key"]
  | .clientId => ["azure_storage_client_id", "azure_client_id", "client_id"]
  | .clientSecret => ["azure_storage_client_secret", "azure_client_secret", "client_secret"]
  | .authorityId =>
    ["azure_storage_tenant_id", "azure_storage_authority_id", "azure_tenant_id",
     "azure_authority_id", "tenant_id", "authority_id"]
  | .sasKey => ["azure_storage_sas_key", "azure_storage_sas_token", "sas_key", "sas_token"]
  | .token => ["azure_storage_token", "bearer_token", "token"]
  | .useEmulator => ["azure_storage_use_emulator", "object_store_use_emulator", "use_emulator"]

/-- Modelled from the spec: the crate-level `util::str_is_truthy` helper
(not under src/), which reads a configuration flag string as a boolean,
accepting the usual affirmative spellings ASCII-case-insensitively. -/
def str_is_truthy (v : String) : Bool :=
  ascii_lowercase v = "1" || ascii_lowercase v = "true" ||
    ascii_lowercase v = "on" || ascii_lowercase v = "yes" ||
    ascii_lowercase v = "y"

/-! ## Operations -/

/-- The `validate` closure inside `parse_url`: a name containing a literal
dot is rejected with the url-not-recognised error. -/
def validate_name (url : String) (s : String) : Except AzError String :=
  if s.data.contains '.' then .error (.urlNotRecognised url) else .ok s

/-- `MicrosoftAzureBuilder::parse_url` after the external `Url::parse`
step: dispatch on the scheme of the already-parsed URL and set the
container/account fields of the builder.  The Rust or-patterns on scheme
literals become an if-chain. -/
def parse_url (b : Builder) (u : ParsedUrl) : Except AzError Builder :=
  match u.host with
  | none => .error (.urlNotRecognised u.raw)
  | some host =>
    if u.scheme = "az" ∨ u.scheme = "adl" ∨ u.scheme = "azure" then
      (validate_name u.raw host).map (fun c => { b with container_name := some c })
    else if u.scheme = "abfs" ∨ u.scheme = "abfss" then
      if u.username = "" then
        (validate_name u.raw host).map (fun c => { b with container_name := some c })
      else
        match strip_suffix_str host ".dfs.core.windows.net" with
        | some a =>
          (validate_name u.raw u.username).bind (fun c =>
            (validate_name u.raw a).map (fun an =>
              { b with container_name := some c, account_name := some an }))
        | none => .error (.urlNotRecognised u.raw)
    else if u.scheme = "https" then
      match split_once_str '.' host with
      | some (a, rest) =>
        if rest = "dfs.core.windows.net" ∨ rest = "blob.core.windows.net" then
          (validate_name u.raw a).map (fun an => { b with account_name := some an })
        else .error (.urlNotRecognised u.raw)
      | none => .error (.urlNotRecognised u.raw)
    else .error (.unknownUrlScheme u.scheme)

/-- The partial configuration a URL dialect yields: an optional account
name and an optional container name. -/
structure PartialConfig where
  account : Option String := none
  container : Option String := none
deriving DecidableEq, Repr

/-- The specification's URL-dialect table (spec section 4.1), written from
its words: each recognized dialect yields a {account?, container?}
assignment, every extracted simple name is rejected if it contains a dot,
and failures are the url-not-recognised or unknown-scheme errors. -/
def spec_parse_dialect (u : ParsedUrl) : Except AzError PartialConfig :=
  match u.host with
  | none => .error (.urlNotRecognised u.raw)
  | some host =>
    if u.scheme = "az" ∨ u.scheme = "adl" ∨ u.scheme = "azure" then
      (validate_name u.raw host).map (fun c => { container := some c })
    else if u.scheme = "abfs" ∨ u.scheme = "abfss" then
      if u.username = "" then
        (validate_name u.raw host).map (fun c => { container := some c })
      else
        match strip_suffix_str host ".dfs.core.windows.net" with
        | some a =>
          (validate_name u.raw u.username).bind (fun c =>
            (validate_name u.raw a).map (fun an =>
              { container := some c, account := some an }))
        | none => .error (.urlNotRecognised u.raw)
    else if u.scheme = "https" then
      match split_once_str '.' host with
      | some (a, rest) =>
        if rest = "dfs.core.windows.net" ∨ rest = "blob.core.windows.net" then
          (validate_name u.raw a).map (fun an => { account := some an })
        else .error (.urlNotRecognised u.raw)
      | none => .error (.urlNotRecognised u.raw)
    else .error (.unknownUrlScheme u.scheme)

/-- Overwrite the builder's account/container with the fields a URL dialect
derived, leaving a field untouched when the dialect derived nothing for it. -/
def apply_url_fields (b : Builder) (pc : PartialConfig) : Builder :=
  { b with
    account_name := match pc.account with | some a => some a | none => b.account_name
    container_name := match pc.container with | some c => some c | none => b.container_name }

/-- The body of the match in `try_with_option`: store the value in the
field the resolved key selects. -/
def apply_config_key (b : Builder) (k : AzureConfigKey) (value : String) : Builder :=
  match k with
  | .accessKey => { b with access_key := some value }
  | .accountName => { b with account_name := some value }
  | .clientId => { b with client_id := some value }
  | .clientSecret => { b with client_secret := some value }
  | .authorityId => { b with tenant_id := some value }
  | .sasKey => { b with sas_key := some value }
  | .token => { b with bearer_token := some value }
  | .useEmulator => { b with use_emulator := str_is_truthy value }

/-- `MicrosoftAzureBuilder::try_with_option`: resolve the key string, then
set the selected field; an unknown key is a hard error. -/
def try_with_option (b : Builder) (key value : String) : Except AzError Builder :=
  (AzureConfigKey.from_str key).map (fun k => apply_config_key b k value)

/-- `MicrosoftAzureBuilder::try_with_options`: apply each pair in order,
stopping at the first error. -/
def try_with_options (b : Builder) : List (String × String) → Except AzError Builder
  | [] => .ok b
  | (k, v) :: rest =>
    match try_with_option b k v with
    | .ok b2 => try_with_options b2 rest
    | .error e => .error e

/-- One iteration of the `from_env` scan: an environment variable is
consulted only when its name starts with AZURE_; its lower-cased name is
resolved and, when recognized, applied through `try_with_option` (whose
`unwrap` is modelled as `Option`); otherwise the builder is unchanged. -/
def env_loop_step (ob : Option Builder) (kv : String × String) : Option Builder :=
  match ob with
  | none => none
  | some b =>
    if List.isPrefixOf "AZURE_".data kv.1.data then
      match AzureConfigKey.from_str (ascii_lowercase kv.1) with
      | .ok ck => (try_with_option b ck.as_ref kv.2).toOption
      | .error _ => some b
    else some b

/-- `MicrosoftAzureBuilder::from_env` over an injected environment
snapshot: scan all variables, then honor the AZURE_ALLOW_HTTP override for
the allow-http client option.  A `none` result models a panic of the
`unwrap` inside the loop. -/
def from_env (env : List (String × String)) : Option Builder :=
  match env.foldl env_loop_step (some Builder.new) with
  | none => none
  | some b =>
    some (match env.lookup "AZURE_ALLOW_HTTP" with
      | some text =>
        { b with client_options := { b.client_options with allow_http := str_is_truthy text } }
      | none => b)

/-- The splitting phase of `split_sas`, applied to the percent-decoded
text: strip leading question marks, split on ampersands, drop
all-whitespace segments, and split each remaining segment at its first
equals sign; a segment without one is a missing-SAS-component error. -/
def split_sas_segments (chars : List Char) : Except AzError (List (String × String)) :=
  let kv_str_pairs :=
    (split_on_char '&' (chars.dropWhile (fun c => c = '?'))).filter
      (fun s => !s.all rust_is_whitespace)
  kv_str_pairs.mapM (fun seg =>
    match split_once_chars '=' (trim_chars seg) with
    | some (k, v) => .ok (String.mk k, String.mk v)
    | none => .error AzError.missingSasComponent)

/-- `split_sas`: percent-decode the raw SAS string (with strict UTF-8
re-validation), then split the decoded text into key-value pairs. -/
def split_sas (sas : String) : Except AzError (List (String × String)) :=
  match utf8_decode (percent_decode (utf8_encode_string sas)) with
  | none => .error .decodeSasKey
  | some chars => split_sas_segments chars

/-- The credential if-chain of `build` (non-emulator branch): bearer token,
then access key, then the full client-secret triple, then SAS query pairs,
then a raw SAS key split by `split_sas`, else missing credentials. -/
def build_credential (b : Builder) : Except AzError CredentialProvider :=
  match b.bearer_token with
  | some bearer_token => .ok (.accessKey bearer_token)
  | none =>
    match b.access_key with
    | some access_key => .ok (.accessKey access_key)
    | none =>
      match b.client_id, b.client_secret, b.tenant_id with
      | some client_id, some client_secret, some tenant_id =>
        .ok (.clientSecret
          { client_id, client_secret, tenant_id, authority_host := b.authority_host })
      | _, _, _ =>
        match b.sas_query_pairs with
        | some query_pairs => .ok (.sasToken query_pairs)
        | none =>
          match b.sas_key with
          | some sas => (split_sas sas).map .sasToken
          | none => .error .missingCredentials

/-- The first step of `build`: when a connection URL was supplied, parse it
into the builder before anything else (`self.url.take()` + `parse_url`). -/
def resolve_url_step (b : Builder) : Except AzError Builder :=
  match b.url with
  | some u => parse_url b u
  | none => .ok b

/-- The body of `MicrosoftAzureBuilder::build` after the URL step: require
a container, branch on emulator mode, synthesize the endpoint and select
the credential.  `azurite_env` is the injected value of the
AZURITE_BLOB_STORAGE_URL environment override read by `url_from_env`; the
external `Url::parse` of the synthesized endpoint text is modelled as the
text itself (its accept/reject behavior belongs to the `url` crate). -/
def build_core (b : Builder) (azurite_env : Option String) : Except AzError AzureConfig :=
  match b.container_name with
  | none => .error .missingContainerName
  | some container =>
    if b.use_emulator then
      let account := b.account_name.getD EMULATOR_ACCOUNT
      let service := azurite_env.getD "http://127.0.0.1:10000"
      let account_key := b.access_key.getD EMULATOR_ACCOUNT_KEY
      .ok { account, container, is_emulator := true, service,
            credentials := .accessKey account_key,
            client_options := { b.client_options with allow_http := true } }
    else
      match b.account_name with
      | none => .error .missingAccount
      | some account =>
        let service := "https://" ++ account ++ ".blob.core.windows.net"
        match build_credential b with
        | .error e => .error e
        | .ok credentials =>
          .ok { account, container, is_emulator := false, service,
                credentials, client_options := b.client_options }

/-- `MicrosoftAzureBuilder::build`: parse a supplied connection URL first,
then validate and assemble the configuration. -/
def build (b : Builder) (azurite_env : Option String) : Except AzError AzureConfig :=
  match resolve_url_step b with
  | .error e => .error e
  | .ok b2 => build_core b2 azurite_env

/-- The request `put_multipart_part` issues: its query string and the
`UploadPart` it returns on success (the body bytes pass through to the
external transport unchanged). -/
structure PartUploadRequest where
  query : List (String × String)
  part : UploadPart
deriving DecidableEq, Repr

/-- `AzureMultiPartUpload::put_multipart_part`: format the zero-based part
index with Rust's width-20 display padding to obtain the content id, use it
as the block id, and send it base64-encoded under the blockid query key. -/
def put_multipart_part (part_idx : Nat) : PartUploadRequest :=
  let content_id := rust_format_width 20 (Nat.repr part_idx)
  let block_id := content_id
  { query := [("comp", "block"), ("blockid", base64_encode (utf8_encode_string block_id))],
    part := { content_id } }

/-- `AzureMultiPartUpload::complete`: collect the content ids of the given
parts, in the order given, into the `BlockList` manifest. -/
def complete (completed_parts : List UploadPart) : BlockList :=
  { blocks := completed_parts.map (fun part => part.content_id) }

/-! ## Shared lemmas -/

theorem rust_format_width_eq (w : Nat) (s : String) :
    rust_format_width w s = String.mk (List.replicate (w - s.length) ' ' ++ s.data) := by
  unfold rust_format_width
  split_ifs with h
  · rfl
  · have hz : w - s.length = 0 := by omega
    rw [hz]
    cases s with
    | mk data => simp

theorem from_str_as_ref (k : AzureConfigKey) : AzureConfigKey.from_str k.as_ref = .ok k := by
  cases k <;> rfl

theorem env_loop_step_isSome (b : Builder) (kv : String × String) :
    (env_loop_step (some b) kv).isSome = true := by
  unfold env_loop_step
  cases hp : List.isPrefixOf "AZURE_".data kv.1.data
  · simp [hp]
  · cases hk : AzureConfigKey.from_str (ascii_lowercase kv.1) with
    | error e => simp [hp, hk]
    | ok ck => simp [hp, hk, try_with_option, from_str_as_ref, Except.toOption, Except.map]

theorem foldl_env_isSome (env : List (String × String)) :
    ∀ b : Builder, (env.foldl env_loop_step (some b)).isSome = true := by
  induction env with
  | nil => intro b; rfl
  | cons kv rest ih =>
    intro b
    rw [List.foldl_cons]
    cases hstep : env_loop_step (some b) kv with
    | none =>
      have h := env_loop_step_isSome b kv
      rw [hstep] at h
      simp at h
    | some b2 => exact ih b2

/-! ## Claim theorems -/

/-- C1 counterexample: at part index 0 the derived block identifier is the
space-padded decimal, not the zero-padded decimal the claim states. -/
theorem c1_counterexample :
    (put_multipart_part 0).part.content_id = "                   0"
  ∧ "                   0" ≠ "00000000000000000000" := by
  exact ⟨rfl, by decide⟩

set_option maxRecDepth 8192 in
/-- C1 (amended): `put_multipart_part` derives the block identifier as the
decimal representation of the zero-based part index left-padded with
SPACES to a minimum width of 20 characters, presents it on the wire
base64-encoded under the blockid query key, and returns an UploadPart
whose content id is that identifier. -/
theorem c1_block_id_space_padded :
    (∀ i : Nat,
      (put_multipart_part i).part.content_id
          = String.mk (List.replicate (20 - (Nat.repr i).length) ' ' ++ (Nat.repr i).data)
      ∧ (put_multipart_part i).part.content_id.length = max 20 (Nat.repr i).length
      ∧ (put_multipart_part i).query
          = [("comp", "block"),
             ("blockid",
              base64_encode (utf8_encode_string ((put_multipart_part i).part.content_id)))])
  ∧ (put_multipart_part 0).query
      = [("comp", "block"), ("blockid", "ICAgICAgICAgICAgICAgICAgIDA=")] := by
  constructor
  · intro i
    have h := rust_format_width_eq 20 (Nat.repr i)
    refine ⟨h, ?_, rfl⟩
    show (rust_format_width 20 (Nat.repr i)).length = _
    rw [h]
    simp only [String.length, List.length_append, List.length_replicate]
    omega
  · rfl

set_option maxRecDepth 40000 in
/-- C4: `split_sas` percent-decodes first and then splits the decoded text
on ampersands into pairs split at the first equals sign; on the test
vector it reproduces the documented ordered pairs with percent-escapes
decoded, blank segments are skipped, and a non-blank segment without an
equals sign is the missing-SAS-component error. -/
theorem c4_split_sas :
    split_sas "?sv=2021-10-04&st=2023-01-04T17%3A48%3A57Z&se=2023-01-04T18%3A15%3A00Z&sr=c&sp=rcwl&sig=C7%2BZeEOWbrxPA3R0Cw%2Fw1EZz0%2B4KBvQexeKZKe%2BB6h0%3D"
      = .ok [("sv", "2021-10-04"), ("st", "2023-01-04T17:48:57Z"),
             ("se", "2023-01-04T18:15:00Z"), ("sr", "c"), ("sp", "rcwl"),
             ("sig", "C7+ZeEOWbrxPA3R0Cw/w1EZz0+4KBvQexeKZKe+B6h0=")]
  ∧ (∀ s, split_sas s =
      match utf8_decode (percent_decode (utf8_encode_string s)) with
      | none => .error .decodeSasKey
      | some chars => split_sas_segments chars)
  ∧ split_sas "?a=b& &c=d&" = .ok [("a", "b"), ("c", "d")]
  ∧ split_sas "?sv" = .error .missingSasComponent := by
  exact ⟨rfl, fun s => rfl, rfl, rfl⟩

/-- C8: `complete` builds the block-list manifest from the UploadPart
sequence in exactly the order handed to it; in particular parts given out
of numeric index order keep the handed-in order. -/
theorem c8_complete_order :
    (∀ parts : List UploadPart, (complete parts).blocks = parts.map UploadPart.content_id)
  ∧ (complete [⟨"                   2"⟩, ⟨"                   0"⟩, ⟨"                   1"⟩]).blocks
      = ["                   2", "                   0", "                   1"] := by
  exact ⟨fun parts => rfl, rfl⟩

/-- C9 (code bug): object_store_use_emulator is listed by the doc comment
of AzureConfigKey::UseEmulator as a supported key, yet from_str rejects it
as unknown; every other documented alias resolves to its key, and an
undocumented string is an unknown-key error that try_with_options
propagates. -/
theorem c9_use_emulator_alias_code_bug :
    "object_store_use_emulator" ∈ documented_aliases .useEmulator
  ∧ AzureConfigKey.from_str "object_store_use_emulator"
      = .error (.unknownConfigurationKey "object_store_use_emulator")
  ∧ azure_config_keys.all (fun k => (documented_aliases k).all (fun a =>
      a == "object_store_use_emulator" ||
        match AzureConfigKey.from_str a with
        | .ok k2 => k2 == k
        | .error _ => false)) = true
  ∧ try_with_options Builder.new [("azure_client_id", "x"), ("invalid-key", "y")]
      = .error (.unknownConfigurationKey "invalid-key") := by
  exact ⟨by decide, rfl, by decide, rfl⟩

/-- C10 counterexample: AZURE_ALLOW_HTTP starts with AZURE_, its
lower-cased name is not a recognized configuration key, and yet a truthy
value does NOT leave the builder unchanged: from_env flips the allow-http
client option. -/
theorem c10_counterexample :
    List.isPrefixOf "AZURE_".data "AZURE_ALLOW_HTTP".data = true
  ∧ AzureConfigKey.from_str (ascii_lowercase "AZURE_ALLOW_HTTP")
      = .error (.unknownConfigurationKey "azure_allow_http")
  ∧ from_env [("AZURE_ALLOW_HTTP", "true")] ≠ some Builder.new := by
  exact ⟨rfl, rfl, by decide⟩

/-- C10 (amended): from_env never fails; a variable whose name does not
start with AZURE_ is ignored by the scan, an AZURE_-prefixed variable
whose lower-cased name is not a recognized configuration key is silently
skipped (builder unchanged) instead of raising the unknown-key error
try_with_option raises for the same string — with the single exception of
AZURE_ALLOW_HTTP, which sets the allow-http client option after the scan. -/
theorem c10_from_env_amended :
    (∀ env, (from_env env).isSome = true)
  ∧ (∀ (b : Builder) (k v : String), List.isPrefixOf "AZURE_".data k.data = false →
      env_loop_step (some b) (k, v) = some b)
  ∧ (∀ (b : Builder) (k v : String) (e : AzError),
      AzureConfigKey.from_str (ascii_lowercase k) = .error e →
      env_loop_step (some b) (k, v) = some b)
  ∧ (∀ (b : Builder) (k v : String) (e : AzError),
      AzureConfigKey.from_str k = .error e → try_with_option b k v = .error e)
  ∧ from_env [("AZURE_ALLOW_HTTP", "true")]
      = some { Builder.new with client_options := { allow_http := true } } := by
  refine ⟨?_, ?_, ?_, ?_, rfl⟩
  · intro env
    unfold from_env
    cases hf : env.foldl env_loop_step (some Builder.new) with
    | none =>
      have h := foldl_env_isSome env Builder.new
      rw [hf] at h
      simp at h
    | some b => rfl
  · intro b k v h
    unfold env_loop_step
    simp [h]
  · intro b k v e h
    unfold env_loop_step
    cases hp : List.isPrefixOf "AZURE_".data k.data
    · simp [hp]
    · simp [hp, h]
  · intro b k v e h
    unfold try_with_option
    rw [h]
    rfl

/-- C10 witness: concrete instances of the amended from_env properties. -/
theorem c10_witness :
    (from_env [("AZURE_STORAGE_ACCOUNT_NAME", "acct"), ("AZURE_BOGUS", "x"), ("HOME", "h")]).isSome = true
  ∧ env_loop_step (some Builder.new) ("HOME", "h") = some Builder.new
  ∧ env_loop_step (some Builder.new) ("AZURE_BOGUS", "x") = some Builder.new
  ∧ try_with_option Builder.new "invalid-key" "v"
      = .error (.unknownConfigurationKey "invalid-key")
  ∧ from_env [("AZURE_ALLOW_HTTP", "true")]
      = some { Builder.new with client_options := { allow_http := true } } := by
  obtain ⟨h1, h2, h3, h4, h5⟩ := c10_from_env_amended
  exact ⟨h1 _, h2 Builder.new "HOME" "h" rfl,
         h3 Builder.new "AZURE_BOGUS" "x" (.unknownConfigurationKey "azure_bogus") rfl,
         h4 Builder.new "invalid-key" "v" (.unknownConfigurationKey "invalid-key") rfl, h5⟩

theorem parse_url_eq_spec (b : Builder) (u : ParsedUrl) :
    parse_url b u = (spec_parse_dialect u).map (apply_url_fields b) := by
  obtain ⟨raw, scheme, username, host⟩ := u
  unfold parse_url spec_parse_dialect
  cases host with
  | none => rfl
  | some host =>
    simp only
    by_cases h1 : scheme = "az" ∨ scheme = "adl" ∨ scheme = "azure"
    · simp only [if_pos h1]
      cases validate_name raw host <;> rfl
    · simp only [if_neg h1]
      by_cases h2 : scheme = "abfs" ∨ scheme = "abfss"
      · simp only [if_pos h2]
        by_cases h3 : username = ""
        · simp only [if_pos h3]
          cases validate_name raw host <;> rfl
        · simp only [if_neg h3]
          cases strip_suffix_str host ".dfs.core.windows.net" with
          | none => rfl
          | some acct =>
            cases validate_name raw username with
            | error e => rfl
            | ok c =>
              cases hva : validate_name raw acct with
              | error e => simp [hva, Except.bind, Except.map, apply_url_fields]
              | ok an => simp [hva, Except.bind, Except.map, apply_url_fields]
      · simp only [if_neg h2]
        by_cases h4 : scheme = "https"
        · simp only [if_pos h4]
          cases split_once_str '.' host with
          | none => rfl
          | some p =>
            obtain ⟨acct, rest⟩ := p
            by_cases h5 : rest = "dfs.core.windows.net" ∨ rest = "blob.core.windows.net"
            · simp only [if_pos h5]
              cases validate_name raw acct <;> rfl
            · simp only [if_neg h5]
              rfl
        · simp only [if_neg h4]
          rfl

/-- C2: for every parsed URL, `parse_url` computes exactly the account and
container assignment of the specification's dialect table (applied as an
overwrite of the builder), including every rejection; in particular a
dotted simple name, an https host with an unrecognized suffix, and an
unknown scheme are all explicit errors. -/
theorem c2_parse_url_matches_spec :
    (∀ (b : Builder) (u : ParsedUrl),
      parse_url b u = (spec_parse_dialect u).map (apply_url_fields b))
  ∧ parse_url Builder.new
      ⟨"abfss://file_system@account.dfs.core.windows.net/", "abfss", "file_system",
       some "account.dfs.core.windows.net"⟩
      = .ok { Builder.new with
              account_name := some "account", container_name := some "file_system" }
  ∧ parse_url Builder.new ⟨"az://blob.mydomain/", "az", "", some "blob.mydomain"⟩
      = .error (.urlNotRecognised "az://blob.mydomain/")
  ∧ parse_url Builder.new ⟨"abfs://container.foo/path", "abfs", "", some "container.foo"⟩
      = .error (.urlNotRecognised "abfs://container.foo/path")
  ∧ parse_url Builder.new
      ⟨"https://blob.foo.dfs.core.windows.net/", "https", "",
       some "blob.foo.dfs.core.windows.net"⟩
      = .error (.urlNotRecognised "https://blob.foo.dfs.core.windows.net/")
  ∧ parse_url Builder.new
      ⟨"mailto://account.blob.core.windows.net/", "mailto", "",
       some "account.blob.core.windows.net"⟩
      = .error (.unknownUrlScheme "mailto") := by
  exact ⟨parse_url_eq_spec, rfl, rfl, rfl, rfl, rfl⟩

theorem build_url_none (b : Builder) (env : Option String) (hurl : b.url = none) :
    build b env = build_core b env := by
  unfold build resolve_url_step
  rw [hurl]

theorem build_core_nonemulator (b : Builder) (env : Option String)
    (container account : String)
    (hem : b.use_emulator = false) (hc : b.container_name = some container)
    (ha : b.account_name = some account) :
    build_core b env = (build_credential b).map (fun credentials =>
      { account, container, is_emulator := false,
        service := "https://" ++ account ++ ".blob.core.windows.net",
        credentials, client_options := b.client_options }) := by
  unfold build_core
  rw [hc]
  simp only [hem, ha, Bool.false_eq_true, if_false]
  cases build_credential b <;> simp [Except.map]

theorem build_credential_triple_incomplete (b : Builder)
    (hbt : b.bearer_token = none) (hak : b.access_key = none)
    (htriple : b.client_id = none ∨ b.client_secret = none ∨ b.tenant_id = none) :
    build_credential b =
      (match b.sas_query_pairs with
       | some qp => .ok (.sasToken qp)
       | none =>
         match b.sas_key with
         | some sas => (split_sas sas).map .sasToken
         | none => .error .missingCredentials) := by
  unfold build_credential
  rw [hbt, hak]
  rcases htriple with h | h | h
  · rw [h]
  · cases hci : b.client_id with
    | none => rfl
    | some cid => rw [h]
  · cases hci : b.client_id with
    | none => rfl
    | some cid =>
      cases hcs : b.client_secret with
      | none => rfl
      | some cs => rw [h]

/-- C3: in non-emulator mode build() selects exactly one credential
strategy by the fixed precedence bearer token, access key, full
client-secret triple, SAS query pairs, raw SAS key; with nothing usable it
fails with the missing-credentials error. -/
theorem c3_credential_precedence (b : Builder) (env : Option String)
    (container account : String)
    (hem : b.use_emulator = false) (hurl : b.url = none)
    (hc : b.container_name = some container) (ha : b.account_name = some account) :
    (∀ t, b.bearer_token = some t →
      Except.map AzureConfig.credentials (build b env) = .ok (.accessKey t))
  ∧ (∀ k, b.bearer_token = none → b.access_key = some k →
      Except.map AzureConfig.credentials (build b env) = .ok (.accessKey k))
  ∧ (∀ cid cs tid, b.bearer_token = none → b.access_key = none →
      b.client_id = some cid → b.client_secret = some cs → b.tenant_id = some tid →
      Except.map AzureConfig.credentials (build b env)
        = .ok (.clientSecret { client_id := cid, client_secret := cs,
                               tenant_id := tid, authority_host := b.authority_host }))
  ∧ (∀ qp, b.bearer_token = none → b.access_key = none →
      (b.client_id = none ∨ b.client_secret = none ∨ b.tenant_id = none) →
      b.sas_query_pairs = some qp →
      Except.map AzureConfig.credentials (build b env) = .ok (.sasToken qp))
  ∧ (∀ s, b.bearer_token = none → b.access_key = none →
      (b.client_id = none ∨ b.client_secret = none ∨ b.tenant_id = none) →
      b.sas_query_pairs = none → b.sas_key = some s →
      Except.map AzureConfig.credentials (build b env) = (split_sas s).map .sasToken)
  ∧ (b.bearer_token = none → b.access_key = none →
      (b.client_id = none ∨ b.client_secret = none ∨ b.tenant_id = none) →
      b.sas_query_pairs = none → b.sas_key = none →
      build b env = .error .missingCredentials) := by
  rw [build_url_none b env hurl, build_core_nonemulator b env container account hem hc ha]
  refine ⟨?_, ?_, ?_, ?_, ?_, ?_⟩
  · intro t ht
    simp [build_credential, ht, Except.map]
  · intro k hbt hak
    simp [build_credential, hbt, hak, Except.map]
  · intro cid cs tid hbt hak hci hcs hti
    simp [build_credential, hbt, hak, hci, hcs, hti, Except.map]
  · intro qp hbt hak htriple hsq
    rw [build_credential_triple_incomplete b hbt hak htriple, hsq]
    rfl
  · intro s hbt hak htriple hsq hsk
    rw [build_credential_triple_incomplete b hbt hak htriple, hsq, hsk]
    cases hsp : split_sas s <;> simp [hsp, Except.map]
  · intro hbt hak htriple hsq hsk
    rw [build_credential_triple_incomplete b hbt hak htriple, hsq, hsk]
    rfl

/-- C3 witness: the credential precedence at concrete builders, one per
rung of the precedence chain. -/
theorem c3_witness :
    Except.map AzureConfig.credentials
        (build { Builder.new with
                   container_name := some "c", account_name := some "a",
                   bearer_token := some "tok", access_key := some "key" } none)
      = .ok (.accessKey "tok")
  ∧ Except.map AzureConfig.credentials
        (build { Builder.new with
                   container_name := some "c", account_name := some "a",
                   access_key := some "key" } none)
      = .ok (.accessKey "key")
  ∧ Except.map AzureConfig.credentials
        (build { Builder.new with
                   container_name := some "c", account_name := some "a",
                   client_id := some "cid", client_secret := some "cs",
                   tenant_id := some "tid", sas_query_pairs := some [("sv", "1")] } none)
      = .ok (.clientSecret { client_id := "cid", client_secret := "cs",
                             tenant_id := "tid", authority_host := none })
  ∧ Except.map AzureConfig.credentials
        (build { Builder.new with
                   container_name := some "c", account_name := some "a",
                   client_id := some "cid", sas_query_pairs := some [("sv", "1")] } none)
      = .ok (.sasToken [("sv", "1")])
  ∧ Except.map AzureConfig.credentials
        (build { Builder.new with
                   container_name := some "c", account_name := some "a",
                   sas_key := some "?a=b" } none)
      = (split_sas "?a=b").map .sasToken
  ∧ build { Builder.new with
            container_name := some "c", account_name := some "a" } none
      = .error .missingCredentials := by
  refine ⟨?_, ?_, ?_, ?_, ?_, ?_⟩
  · exact (c3_credential_precedence _ none "c" "a" rfl rfl rfl rfl).1 "tok" rfl
  · exact (c3_credential_precedence _ none "c" "a" rfl rfl rfl rfl).2.1 "key" rfl rfl
  · exact (c3_credential_precedence _ none "c" "a" rfl rfl rfl rfl).2.2.1
      "cid" "cs" "tid" rfl rfl rfl rfl rfl
  · exact (c3_credential_precedence _ none "c" "a" rfl rfl rfl rfl).2.2.2.1
      [("sv", "1")] rfl rfl (Or.inr (Or.inl rfl)) rfl
  · exact (c3_credential_precedence _ none "c" "a" rfl rfl rfl rfl).2.2.2.2.1
      "?a=b" rfl rfl (Or.inl rfl) rfl rfl
  · exact (c3_credential_precedence _ none "c" "a" rfl rfl rfl rfl).2.2.2.2.2
      rfl rfl (Or.inl rfl) rfl rfl

/-- C5: with the use-emulator flag set, build() bypasses the credential
precedence entirely: shared-key credential from the caller key or the
well-known emulator key, account defaulting to the well-known emulator
account, endpoint from the AZURITE_BLOB_STORAGE_URL override or the fixed
local default, and allow-http force-enabled — whatever other credential
fields are set. -/
theorem c5_emulator_short_circuit (b : Builder) (env : Option String) (container : String)
    (hem : b.use_emulator = true) (hurl : b.url = none)
    (hc : b.container_name = some container) :
    build b env = .ok { account := b.account_name.getD EMULATOR_ACCOUNT,
                        container,
                        is_emulator := true,
                        service := env.getD "http://127.0.0.1:10000",
                        credentials := .accessKey (b.access_key.getD EMULATOR_ACCOUNT_KEY),
                        client_options := { b.client_options with allow_http := true } }
  ∧ (b.account_name = none → b.account_name.getD EMULATOR_ACCOUNT = "devstoreaccount1") := by
  constructor
  · rw [build_url_none b env hurl]
    unfold build_core
    rw [hc]
    simp [hem]
  · intro h
    rw [h]
    rfl

theorem build_core_fields (b : Builder) (env : Option String) (cfg : AzureConfig)
    (h : build_core b env = .ok cfg) :
    b.container_name = some cfg.container
  ∧ (∀ a, b.account_name = some a → cfg.account = a) := by
  unfold build_core at h
  cases hc : b.container_name with
  | none => rw [hc] at h; simp at h
  | some c =>
    rw [hc] at h
    by_cases he : b.use_emulator
    · simp only [he, if_true] at h
      simp only [Except.ok.injEq] at h
      subst h
      refine ⟨rfl, ?_⟩
      intro a ha
      simp [ha]
    · simp only [he, Bool.false_eq_true, if_false] at h
      cases ha : b.account_name with
      | none => rw [ha] at h; simp at h
      | some a =>
        rw [ha] at h
        cases hcr : build_credential b with
        | error e => rw [hcr] at h; simp at h
        | ok cr =>
          rw [hcr] at h
          simp only [Except.ok.injEq] at h
          subst h
          exact ⟨rfl, fun a2 ha2 => Option.some.inj ha2⟩

theorem url_fields_new_container (pc : PartialConfig) :
    (apply_url_fields Builder.new pc).container_name = pc.container := by
  obtain ⟨acc, cont⟩ := pc
  cases cont <;> rfl

theorem url_fields_new_account (pc : PartialConfig) :
    (apply_url_fields Builder.new pc).account_name = pc.account := by
  obtain ⟨acc, cont⟩ := pc
  cases acc <;> rfl

theorem build_url_some (b : Builder) (u : ParsedUrl) (env : Option String)
    (h : b.url = some u) :
    build b env = match parse_url b u with
      | .error e => .error e
      | .ok b2 => build_core b2 env := by
  unfold build resolve_url_step
  rw [h]

/-- C6: when a connection URL is supplied, build() parses it before
anything else (a URL error is the result of build), and the
account/container values the URL derives are the ones in the built
configuration, overwriting whatever was previously set. -/
theorem c6_url_overwrites (b : Builder) (u : ParsedUrl) (env : Option String)
    (h : b.url = some u) :
    (∀ e, parse_url b u = .error e → build b env = .error e)
  ∧ (∀ bu cfg, parse_url Builder.new u = .ok bu → build b env = .ok cfg →
      (∀ c, bu.container_name = some c → cfg.container = c)
      ∧ (∀ a, bu.account_name = some a → cfg.account = a)) := by
  constructor
  · intro e he
    rw [build_url_some b u env h, he]
  · intro bu cfg hbu hcfg
    rw [parse_url_eq_spec] at hbu
    cases hspec : spec_parse_dialect u with
    | error e => rw [hspec] at hbu; simp [Except.map] at hbu
    | ok pc =>
      rw [hspec] at hbu
      simp only [Except.map, Except.ok.injEq] at hbu
      rw [build_url_some b u env h, parse_url_eq_spec, hspec] at hcfg
      simp only [Except.map] at hcfg
      have hf := build_core_fields (apply_url_fields b pc) env cfg hcfg
      constructor
      · intro c hcont
        rw [← hbu, url_fields_new_container] at hcont
        have h2 : (apply_url_fields b pc).container_name = some c := by
          simp [apply_url_fields, hcont]
        have h3 := hf.1
        rw [h2] at h3
        exact (Option.some.inj h3).symm
      · intro a hacc
        rw [← hbu, url_fields_new_account] at hacc
        have h2 : (apply_url_fields b pc).account_name = some a := by
          simp [apply_url_fields, hacc]
        exact hf.2 a h2

/-- C7: whenever the container name is still unset after the URL step,
build() fails with the missing-container error, regardless of every other
field. -/
theorem c7_missing_container (b : Builder) (env : Option String) (bu : Builder)
    (hres : resolve_url_step b = .ok bu) (hc : bu.container_name = none) :
    build b env = .error .missingContainerName := by
  unfold build
  rw [hres]
  show build_core bu env = _
  unfold build_core
  rw [hc]

/-- C5 witness: emulator builds at concrete builders, with and without
caller-supplied account/key and endpoint override, even with a bearer
token and SAS key also set. -/
theorem c5_witness :
    build { Builder.new with
            use_emulator := true, container_name := some "c",
            bearer_token := some "tok", sas_key := some "?x=y" } none
      = .ok { account := "devstoreaccount1", container := "c", is_emulator := true,
              service := "http://127.0.0.1:10000",
              credentials := .accessKey EMULATOR_ACCOUNT_KEY,
              client_options := { allow_http := true } }
  ∧ build { Builder.new with
            use_emulator := true, container_name := some "c",
            account_name := some "myacct", access_key := some "mykey" }
        (some "http://azurite:10000")
      = .ok { account := "myacct", container := "c", is_emulator := true,
              service := "http://azurite:10000",
              credentials := .accessKey "mykey",
              client_options := { allow_http := true } } := by
  constructor
  · exact (c5_emulator_short_circuit _ none "c" rfl rfl rfl).1
  · exact (c5_emulator_short_circuit _ (some "http://azurite:10000") "c" rfl rfl rfl).1

/-- C6 witness: a URL-derived container and account overwrite prior
setters at concrete builders, and a URL error preempts everything. -/
theorem c6_witness :
    ({ account := "prioracct", container := "newcontainer", is_emulator := false,
       service := "https://prioracct.blob.core.windows.net",
       credentials := CredentialProvider.accessKey "k",
       client_options := {} } : AzureConfig).container = "newcontainer"
  ∧ ({ account := "acct", container := "cont", is_emulator := false,
       service := "https://acct.blob.core.windows.net",
       credentials := CredentialProvider.accessKey "k",
       client_options := {} } : AzureConfig).account = "acct"
  ∧ build { Builder.new with
            account_name := some "a", access_key := some "k",
            url := some ⟨"mailto://host/", "mailto", "", some "host"⟩ } none
      = .error (.unknownUrlScheme "mailto") := by
  refine ⟨?_, ?_, ?_⟩
  · exact ((c6_url_overwrites
      { Builder.new with
        container_name := some "prior", account_name := some "prioracct",
        access_key := some "k",
        url := some ⟨"az://newcontainer", "az", "", some "newcontainer"⟩ }
      ⟨"az://newcontainer", "az", "", some "newcontainer"⟩ none rfl).2
      { Builder.new with container_name := some "newcontainer" }
      { account := "prioracct", container := "newcontainer", is_emulator := false,
        service := "https://prioracct.blob.core.windows.net",
        credentials := CredentialProvider.accessKey "k",
        client_options := {} }
      rfl rfl).1 "newcontainer" rfl
  · exact ((c6_url_overwrites
      { Builder.new with
        container_name := some "prior", account_name := some "prioracct",
        access_key := some "k",
        url := some ⟨"abfss://cont@acct.dfs.core.windows.net/", "abfss", "cont",
                     some "acct.dfs.core.windows.net"⟩ }
      ⟨"abfss://cont@acct.dfs.core.windows.net/", "abfss", "cont",
       some "acct.dfs.core.windows.net"⟩ none rfl).2
      { Builder.new with account_name := some "acct", container_name := some "cont" }
      { account := "acct", container := "cont", is_emulator := false,
        service := "https://acct.blob.core.windows.net",
        credentials := CredentialProvider.accessKey "k",
        client_options := {} }
      rfl rfl).2 "acct" rfl
  · exact (c6_url_overwrites
      { Builder.new with
        account_name := some "a", access_key := some "k",
        url := some ⟨"mailto://host/", "mailto", "", some "host"⟩ }
      ⟨"mailto://host/", "mailto", "", some "host"⟩ none rfl).1
      (.unknownUrlScheme "mailto") rfl

/-- C7 witness: missing container at concrete builders: emulator mode
with credentials set, and a URL that supplies only an account. -/
theorem c7_witness :
    build { Builder.new with
            account_name := some "a", bearer_token := some "t",
            use_emulator := true } none
      = .error .missingContainerName
  ∧ build { Builder.new with
            account_name := some "a", access_key := some "k",
            url := some ⟨"https://acct.blob.core.windows.net/", "https", "",
                         some "acct.blob.core.windows.net"⟩ } none
      = .error .missingContainerName := by
  constructor
  · exact c7_missing_container _ none _ rfl rfl
  · exact c7_missing_container _ none
      { Builder.new with
        account_name := some "acct", access_key := some "k",
        url := some ⟨"https://acct.blob.core.windows.net/", "https", "",
                     some "acct.blob.core.windows.net"⟩ } rfl rfl
